import Mathlib

/-!
Shallow embedding of the `ratatui-example` task tracker (`src/main.rs`).

Modelling choices:
* Timestamps (`chrono::DateTime<chrono::Local>`) are modelled by their
  RFC3339 rendering, an opaque `String`: no claim inspects the structure of a
  timestamp, and chrono serializes a `DateTime<Local>` to such a string.
* `std::time::Duration` is modelled as seconds/nanoseconds counters
  (`u64`/`u32` in Rust, here `Nat` with explicit bounds where they matter).
* A `tui_textarea::TextArea` receives only `Key::Char` and `Key::Backspace`
  inputs in this program (all other keys are intercepted by
  `handle_key_event`), so its cursor always sits at the end of the buffer.
  It is therefore modelled as the flat buffer contents plus the visual style
  set by `is_number` (untouched / green / red): inserting a char appends it,
  backspace drops the last char, and `lines()` splits the buffer on the
  newline character, which matches the textarea's line structure.
* Rust code that can terminate the process abnormally (`unwrap` on `None`
  or `Err`, index out of bounds, `unreachable!()`, checked-build integer
  underflow) is modelled by `Option`, with `none` standing for the abort.
* `chrono::Local::now()` is nondeterministic input; it is passed to
  `handle_key_event` as an explicit `now` argument.
* serde_json is modelled at the JSON-value level: `Json` is the value tree,
  serialization of the derived `Serialize`/`Deserialize` instances is given
  by `encodeTask`/`decodeTask` following serde's derive semantics (struct as
  object with the fields looked up by name, unit enum variants as their name
  string, `Vec` as array, `Duration` as `{secs, nanos}` rebuilt with
  nanosecond carry and overflow check).
-/

namespace TaskTracker

/-- `enum Status` (src/main.rs lines 18-24). -/
inductive Status where
  | NotStarted
  | InProgress
  | Complete
  | Overdue
deriving DecidableEq, Repr

/-- `enum State` (src/main.rs lines 26-30): `Home` is the list view, `New`
the compose view. -/
inductive State where
  | Home
  | New
deriving DecidableEq, Repr

/-- `std::time::Duration`: seconds and nanoseconds (u64 / u32 in Rust). -/
structure Duration where
  secs : Nat
  nanos : Nat
deriving DecidableEq, Repr

/-- A `chrono::DateTime<chrono::Local>`, modelled by its RFC3339 rendering. -/
abbrev DateTime := String

/-- `struct Task` (src/main.rs lines 43-50). -/
structure Task where
  created : DateTime
  duration : Duration
  title : String
  description : String
  status : Status
deriving DecidableEq, Repr

/-- Visual state of a textarea: default block, the green "valid" style set by
`is_number` on success, or the red error style set by `is_number` on failure. -/
inductive FieldStyle where
  | untouched
  | valid
  | invalid
deriving DecidableEq, Repr

/-- A `tui_textarea::TextArea`: flat buffer contents (cursor always at the
end in this program) plus the style/block state. -/
structure TextArea where
  content : String
  style : FieldStyle
deriving DecidableEq, Repr

/-- `TextArea::default()`: one empty line, default block. -/
def TextArea.default : TextArea := ⟨"", FieldStyle.untouched⟩

/-- Split a character list at newline characters (the line structure a
textarea maintains; an empty buffer is the single empty line). -/
def splitOnNl : List Char → List (List Char)
  | [] => [[]]
  | c :: cs =>
    if c = '\n' then [] :: splitOnNl cs
    else
      match splitOnNl cs with
      | [] => [[c]]
      | l :: ls => (c :: l) :: ls

/-- `textarea.lines()`. -/
def TextArea.lines (t : TextArea) : List String :=
  (splitOnNl t.content.data).map List.asString

/-- `textarea.lines()[0]` — `lines()` is never empty. -/
def TextArea.firstLine (t : TextArea) : String :=
  t.lines.headD ""

/-- `textarea.input(Input { key: Key::Char(c), .. })`: insert `c` at the
cursor (end of buffer). -/
def TextArea.push (t : TextArea) (c : Char) : TextArea :=
  { t with content := t.content.push c }

/-- `textarea.input(Input { key: Key::Backspace, .. })`: delete the character
before the cursor (the last one), if any. -/
def TextArea.backspace (t : TextArea) : TextArea :=
  { t with content := (t.content.data.dropLast).asString }

/-- `slice.join("\n")` on the lines of a textarea. -/
def joinLines : List String → String
  | [] => ""
  | [s] => s
  | s :: rest => s ++ "\n" ++ joinLines rest

/-- Value of a run of ASCII digits, `none` if any character is not a digit
(Rust's `from_str_radix` digit loop). -/
def digitsVal : List Char → Nat → Option Nat
  | [], acc => some acc
  | c :: cs, acc =>
    if c.isDigit then digitsVal cs (acc * 10 + (c.toNat - 48)) else none

/-- `none` on an empty digit string (Rust: `Err(Empty)`) or a non-digit. -/
def digitsToNat : List Char → Option Nat
  | [] => none
  | c :: cs => digitsVal (c :: cs) 0

/-- `str::parse::<i32>()`: optional sign, decimal digits, range check
`-2^31 ≤ v ≤ 2^31 - 1`. -/
def parseI32 (s : String) : Option Int :=
  match s.data with
  | '-' :: rest =>
    match digitsToNat rest with
    | some n => if (n : Int) ≤ 2 ^ 31 then some (-(n : Int)) else none
    | none => none
  | '+' :: rest =>
    match digitsToNat rest with
    | some n => if (n : Int) ≤ 2 ^ 31 - 1 then some (n : Int) else none
    | none => none
  | cs =>
    match digitsToNat cs with
    | some n => if (n : Int) ≤ 2 ^ 31 - 1 then some (n : Int) else none
    | none => none

/-- `str::parse::<u64>()`: optional `+` sign (`-` is rejected, it is not a
digit), decimal digits, range check `n < 2^64`. -/
def parseU64 (s : String) : Option Nat :=
  match s.data with
  | '+' :: rest =>
    match digitsToNat rest with
    | some n => if n < 2 ^ 64 then some n else none
    | none => none
  | cs =>
    match digitsToNat cs with
    | some n => if n < 2 ^ 64 then some n else none
    | none => none

/-- `fn is_number` (src/main.rs lines 52-75): parse the first line as `i32`;
set the green style and return `true` on success, set the red error style and
return `false` on failure. The styled textarea is returned alongside. -/
def is_number (t : TextArea) : Bool × TextArea :=
  match parseI32 t.firstLine with
  | some _ => (true, { t with style := FieldStyle.valid })
  | none => (false, { t with style := FieldStyle.invalid })

/-- The status cycle performed by Enter in the list view
(src/main.rs lines 333-338). -/
def nextStatus : Status → Status
  | Status.NotStarted => Status.InProgress
  | Status.InProgress => Status.Complete
  | Status.Complete => Status.Overdue
  | Status.Overdue => Status.NotStarted

/-- `struct App` (src/main.rs lines 95-106), restricted to the fields the
event loop reads or writes; `table_state` is represented by its
`selected()` value. -/
structure App where
  tasks : List Task
  exit : Bool
  state : State
  date_input : TextArea
  title_input : TextArea
  description_input : TextArea
  show_description : Bool
  focus : Nat
  selected : Option Nat
deriving DecidableEq, Repr

/-- The `App` value built at the end of `App::new` (src/main.rs lines
213-224), given the tasks loaded from the file. -/
def initApp (tasks : List Task) : App :=
  { tasks := tasks
    exit := false
    state := State.Home
    date_input := TextArea.default
    title_input := TextArea.default
    description_input := TextArea.default
    show_description := false
    focus := 0
    selected := none }

/-- `App::next` (src/main.rs lines 235-247). With a selection and an empty
store, `self.tasks.len() - 1` underflows `usize` (an abort in a checked
build), modelled as `none`. -/
def App.next (a : App) : Option App :=
  match a.selected with
  | some i =>
    if a.tasks.length = 0 then none
    else some { a with selected := some (if i ≥ a.tasks.length - 1 then 0 else i + 1) }
  | none => some { a with selected := some 0 }

/-- `App::previous` (src/main.rs lines 249-261). With selection 0 and an
empty store, `self.tasks.len() - 1` underflows `usize`, modelled as `none`. -/
def App.previous (a : App) : Option App :=
  match a.selected with
  | some i =>
    if i = 0 then
      if a.tasks.length = 0 then none
      else some { a with selected := some (a.tasks.length - 1) }
    else some { a with selected := some (i - 1) }
  | none => some { a with selected := some 0 }

/-- The key events `handle_key_event` distinguishes; `other` stands for every
`KeyCode` that reaches the final wildcard arm in both states. -/
inductive KeyCode where
  | char : Char → KeyCode
  | esc
  | backspace
  | tab
  | enter
  | down
  | up
  | other
deriving DecidableEq, Repr

/-- `App::handle_key_event` (src/main.rs lines 275-346), with the match arms
in source order. `none` models an abnormal termination: the `unwrap` of a
missing selection or of a failed `u64` parse, an out-of-bounds task index, or
the `unreachable!()` arms of the focus routing. -/
def App.handle_key_event (a : App) (now : DateTime) (k : KeyCode) : Option App :=
  match k, a.state with
  | KeyCode.char 'q', State.Home => some { a with exit := true }
  | KeyCode.char 'n', State.Home => some { a with state := State.New }
  | KeyCode.esc, State.New => some { a with state := State.Home }
  | KeyCode.char c, State.New =>
    match a.focus with
    | 0 => some { a with title_input := a.title_input.push c }
    | 1 => some { a with date_input := a.date_input.push c }
    | 2 => some { a with description_input := a.description_input.push c }
    | _ + 3 => none
  | KeyCode.backspace, State.New =>
    match a.focus with
    | 0 => some { a with title_input := a.title_input.backspace }
    | 1 => some { a with date_input := a.date_input.backspace }
    | 2 => some { a with description_input := a.description_input.backspace }
    | _ + 3 => none
  | KeyCode.tab, State.New => some { a with focus := (a.focus + 1) % 3 }
  | KeyCode.enter, State.New =>
    match is_number a.date_input with
    | (true, d) =>
      match parseU64 d.firstLine with
      | some n =>
        some { a with
          date_input := d
          tasks := a.tasks ++ [{
            created := now
            duration := ⟨n * 3600, 0⟩
            title := a.title_input.firstLine
            description := joinLines a.description_input.lines
            status := Status.NotStarted }]
          state := State.Home }
      | none => none
    | (false, d) => some { a with date_input := d }
  | KeyCode.down, State.Home => a.next
  | KeyCode.up, State.Home => a.previous
  | KeyCode.enter, State.Home =>
    match a.selected with
    | some i =>
      match a.tasks[i]? with
      | some t => some { a with tasks := a.tasks.set i { t with status := nextStatus t.status } }
      | none => none
    | none => none
  | KeyCode.char ' ', State.Home => some { a with show_description := !a.show_description }
  | _, _ => some a

/-- Run a sequence of key events from a (possibly already aborted) state. -/
def runEvents (now : DateTime) : Option App → List KeyCode → Option App
  | oa, [] => oa
  | oa, k :: ks => runEvents now (oa.bind fun a => a.handle_key_event now k) ks

/-- The focus invariant on a possibly-aborted state. -/
def focusOk : Option App → Prop
  | none => True
  | some a => a.focus < 3

/-- JSON values, restricted to the forms serde_json emits for this schema. -/
inductive Json where
  | str : String → Json
  | num : Nat → Json
  | arr : List Json → Json
  | obj : List (String × Json) → Json

/-- serde serialization of a unit `enum Status` variant: its name string. -/
def encodeStatus : Status → Json
  | Status.NotStarted => Json.str "NotStarted"
  | Status.InProgress => Json.str "InProgress"
  | Status.Complete => Json.str "Complete"
  | Status.Overdue => Json.str "Overdue"

/-- serde deserialization of `Status`: one of the four variant names. -/
def decodeStatus : Json → Option Status
  | Json.str "NotStarted" => some Status.NotStarted
  | Json.str "InProgress" => some Status.InProgress
  | Json.str "Complete" => some Status.Complete
  | Json.str "Overdue" => some Status.Overdue
  | _ => none

/-- serde serialization of `std::time::Duration`: `{"secs": u64, "nanos": u32}`. -/
def encodeDuration (d : Duration) : Json :=
  Json.obj [("secs", Json.num d.secs), ("nanos", Json.num d.nanos)]

/-- Deserialize a JSON number as a `u64` (out-of-range numbers are errors). -/
def decodeU64 : Json → Option Nat
  | Json.num n => if n < 2 ^ 64 then some n else none
  | _ => none

/-- Deserialize a JSON number as a `u32`. -/
def decodeU32 : Json → Option Nat
  | Json.num n => if n < 2 ^ 32 then some n else none
  | _ => none

/-- `Duration::new(secs, nanos)` as serde's `Deserialize` impl builds it:
carry whole seconds out of the nanosecond field, error if the seconds
counter would overflow `u64`. -/
def durationNew (secs nanos : Nat) : Option Duration :=
  if secs + nanos / 1000000000 < 2 ^ 64 then
    some ⟨secs + nanos / 1000000000, nanos % 1000000000⟩
  else none

/-- serde deserialization of `Duration`. -/
def decodeDuration : Json → Option Duration
  | Json.obj fields => do
    let sj ← fields.lookup "secs"
    let s ← decodeU64 sj
    let nj ← fields.lookup "nanos"
    let n ← decodeU32 nj
    durationNew s n
  | _ => none

/-- Deserialize a JSON string. -/
def decodeStr : Json → Option String
  | Json.str s => some s
  | _ => none

/-- serde serialization of `Task` (derived): an object with the five fields
in declaration order. The timestamp is its RFC3339 rendering. -/
def encodeTask (t : Task) : Json :=
  Json.obj [
    ("created", Json.str t.created),
    ("duration", encodeDuration t.duration),
    ("title", Json.str t.title),
    ("description", Json.str t.description),
    ("status", encodeStatus t.status)]

/-- serde deserialization of `Task` (derived): look up each field by name. -/
def decodeTask : Json → Option Task
  | Json.obj fields => do
    let created ← (fields.lookup "created").bind decodeStr
    let duration ← (fields.lookup "duration").bind decodeDuration
    let title ← (fields.lookup "title").bind decodeStr
    let description ← (fields.lookup "description").bind decodeStr
    let status ← (fields.lookup "status").bind decodeStatus
    some { created, duration, title, description, status }
  | _ => none

/-- serde deserialization of a `Vec<Task>` sequence, element by element. -/
def decodeTaskList : List Json → Option (List Task)
  | [] => some []
  | j :: js =>
    match decodeTask j, decodeTaskList js with
    | some t, some ts => some (t :: ts)
    | _, _ => none

/-- `serde_json::from_str::<Vec<Task>>`, at the JSON-value level. -/
def decodeTasks : Json → Option (List Task)
  | Json.arr js => decodeTaskList js
  | _ => none

/-- `serde_json::to_string(&self.tasks)` at the JSON-value level: what
`App::drop` (src/main.rs lines 108-113) writes to the file. -/
def encodeTasks (ts : List Task) : Json :=
  Json.arr (ts.map encodeTask)

/-- The task-loading part of `App::new` (src/main.rs lines 182-186). The
argument is the result of `std::fs::read_to_string`: `none` when the file is
missing or unreadable (the `Err` arm yields an empty store), otherwise the
parsed JSON content. The result `none` models the `unwrap` abort when the
content does not deserialize as `Vec<Task>`. -/
def loadTasks : Option Json → Option (List Task)
  | none => some []
  | some j => decodeTasks j

/-- A concrete task used to instantiate general theorems. -/
def sampleTask : Task :=
  { created := "2026-01-01T00:00:00+09:00"
    duration := ⟨3600, 0⟩
    title := "a"
    description := ""
    status := Status.NotStarted }

/-- A second concrete task with a multi-line description and another status. -/
def sampleTask2 : Task :=
  { created := "2026-02-03T12:30:00+09:00"
    duration := ⟨7200, 500⟩
    title := "b"
    description := "line1\nline2"
    status := Status.Overdue }

/-! ### Helper lemmas -/

/-- `lines()[0]` of a textarea depends only on the buffer contents, not on
the visual style. -/
theorem firstLine_mk (c : String) (s : FieldStyle) (t : TextArea) (h : t.content = c) :
    (TextArea.mk c s).firstLine = t.firstLine := by
  simp [TextArea.firstLine, TextArea.lines, h]

/-- `App::next` never touches the focus index. -/
theorem focusOk_next (a : App) (h : a.focus < 3) : focusOk a.next := by
  obtain ⟨ts, ex, st, d, ti, de, sh, f, sel⟩ := a
  replace h : f < 3 := h
  simp only [App.next]
  cases sel with
  | none => exact h
  | some i =>
    by_cases hl : ts.length = 0
    · simp [hl, focusOk]
    · simp [hl, focusOk]
      exact h

/-- `App::previous` never touches the focus index. -/
theorem focusOk_previous (a : App) (h : a.focus < 3) : focusOk a.previous := by
  obtain ⟨ts, ex, st, d, ti, de, sh, f, sel⟩ := a
  replace h : f < 3 := h
  simp only [App.previous]
  cases sel with
  | none => exact h
  | some i =>
    by_cases hi : i = 0
    · by_cases hl : ts.length = 0
      · simp [hi, hl, focusOk]
      · simp [hi, hl, focusOk]
        exact h
    · simp [hi, focusOk]
      exact h

/-- One key event preserves the focus bound. -/
theorem handle_focusOk (a : App) (now : DateTime) (k : KeyCode) (h : a.focus < 3) :
    focusOk (a.handle_key_event now k) := by
  unfold App.handle_key_event
  split
  · exact h
  · exact h
  · exact h
  · split
    · exact h
    · exact h
    · exact h
    · exact trivial
  · split
    · exact h
    · exact h
    · exact h
    · exact trivial
  · exact Nat.mod_lt _ (by decide)
  · split
    · split
      · exact h
      · exact trivial
    · exact h
  · exact focusOk_next _ h
  · exact focusOk_previous _ h
  · split
    · split
      · exact h
      · exact trivial
    · exact trivial
  · exact h
  · exact h

/-- The focus bound is preserved along any event sequence. -/
theorem runEvents_focusOk (now : DateTime) (ks : List KeyCode) :
    ∀ oa : Option App, focusOk oa → focusOk (runEvents now oa ks) := by
  induction ks with
  | nil => intro oa h; exact h
  | cons k ks ih =>
    intro oa h
    simp only [runEvents]
    apply ih
    cases oa with
    | none => exact trivial
    | some a => exact handle_focusOk a now k h

/-- Enter in the compose view, successful path: if the duration buffer's
first line parses both as `i32` (so `is_number` succeeds) and as `u64` (so
the `unwrap` does not abort), the new task is appended and the view returns
to the list. -/
theorem handle_enter_success (a : App) (now : DateTime) (h : a.state = State.New)
    (v : Int) (n : Nat)
    (h1 : parseI32 a.date_input.firstLine = some v)
    (h2 : parseU64 a.date_input.firstLine = some n) :
    a.handle_key_event now KeyCode.enter =
      some { a with
        date_input := { a.date_input with style := FieldStyle.valid }
        tasks := a.tasks ++ [{
          created := now
          duration := ⟨n * 3600, 0⟩
          title := a.title_input.firstLine
          description := joinLines a.description_input.lines
          status := Status.NotStarted }]
        state := State.Home } := by
  obtain ⟨ts, ex, st, d, ti, de, sh, f, sel⟩ := a
  cases st with
  | New =>
    simp only [App.handle_key_event, is_number] at h1 h2 ⊢
    simp [h1, h2, firstLine_mk d.content FieldStyle.valid d rfl]
  | Home => exact State.noConfusion h

/-- Enter in the compose view, failure path: if the duration buffer's first
line does not parse as `i32`, only the error style changes. -/
theorem handle_enter_failure (a : App) (now : DateTime) (h : a.state = State.New)
    (h1 : parseI32 a.date_input.firstLine = none) :
    a.handle_key_event now KeyCode.enter =
      some { a with date_input := { a.date_input with style := FieldStyle.invalid } } := by
  obtain ⟨ts, ex, st, d, ti, de, sh, f, sel⟩ := a
  cases st with
  | New =>
    simp only [App.handle_key_event, is_number]
    simp [h1]
  | Home => exact State.noConfusion h

/-- Status round-trips through its serde encoding. -/
theorem decodeStatus_encodeStatus (s : Status) : decodeStatus (encodeStatus s) = some s := by
  cases s <;> rfl

/-- A well-formed duration (`nanos < 10^9` and `secs` a `u64`, the invariants
of `std::time::Duration`) round-trips through its serde encoding. -/
theorem decodeDuration_encodeDuration (d : Duration) (h1 : d.nanos < 1000000000)
    (h2 : d.secs < 2 ^ 64) : decodeDuration (encodeDuration d) = some d := by
  have h2' : d.secs < 18446744073709551616 := h2
  have h3' : d.nanos < 4294967296 := by omega
  have h4 : d.nanos / 1000000000 = 0 := Nat.div_eq_of_lt h1
  have h5 : d.nanos % 1000000000 = d.nanos := Nat.mod_eq_of_lt h1
  simp [decodeDuration, encodeDuration, List.lookup, decodeU64, decodeU32,
    durationNew, h2', h3', h4, h5]

/-- A task with a well-formed duration round-trips through its serde
encoding. -/
theorem decodeTask_encodeTask (t : Task) (h1 : t.duration.nanos < 1000000000)
    (h2 : t.duration.secs < 2 ^ 64) : decodeTask (encodeTask t) = some t := by
  simp [decodeTask, encodeTask, List.lookup, decodeStr,
    decodeDuration_encodeDuration t.duration h1 h2, decodeStatus_encodeStatus]

/-- A task list with well-formed durations round-trips element by element,
preserving order. -/
theorem decodeTaskList_encode (ts : List Task)
    (h : ∀ t ∈ ts, t.duration.nanos < 1000000000 ∧ t.duration.secs < 2 ^ 64) :
    decodeTaskList (ts.map encodeTask) = some ts := by
  induction ts with
  | nil => rfl
  | cons t ts ih =>
    have ht := h t (List.mem_cons_self t ts)
    simp only [List.map_cons, decodeTaskList,
      decodeTask_encodeTask t ht.1 ht.2,
      ih fun x hx => h x (List.mem_cons_of_mem t hx)]

/-! ### Claim theorems -/

/-- Claim C1: pressing Enter in the list view with no selection is claimed to
be a safe no-op; the code instead unwraps the missing selection and aborts.
This theorem evaluates the embedded code at the failing input — a fresh app
with an empty store and no selection — and shows the result is the abort
value `none`. -/
theorem c1_toggle_without_selection_aborts :
    (initApp []).handle_key_event "2026-01-01T00:00:00+09:00" KeyCode.enter = none := rfl

/-- Claim C2: pressing Enter in the compose view is claimed never to crash
for any duration-buffer content; the code validates the buffer with an `i32`
parse but commits with an unwrapped `u64` parse, so the negative input "-1"
passes validation and then aborts. This theorem evaluates the embedded code
at that failing input. -/
theorem c2_negative_duration_submit_aborts :
    parseI32 "-1" = some (-1)
    ∧ ({ initApp [] with
          state := State.New
          date_input := ⟨"-1", FieldStyle.untouched⟩ } : App).handle_key_event
        "2026-01-01T00:00:00+09:00" KeyCode.enter = none :=
  ⟨rfl, rfl⟩

/-- Claim C3, counterexample: with a prior title buffer "x" and focus 2,
pressing the "new" key leaves the buffer and the focus exactly as they were,
refuting the claim that the buffers are cleared and the focus reset. -/
theorem c3_new_key_cex :
    ((({ initApp [] with
          title_input := ⟨"x", FieldStyle.untouched⟩
          focus := 2 } : App).handle_key_event "2026-01-01T00:00:00+09:00"
        (KeyCode.char 'n')).map fun b => (b.title_input.content, b.focus)) =
      some ("x", 2) := rfl

/-- Claim C3, amended: pressing the "new" key in the list view transitions to
the compose view and changes nothing else — the three input buffers and the
focus index keep their prior values. -/
theorem c3_new_key_only_changes_state (a : App) (now : DateTime) (h : a.state = State.Home) :
    a.handle_key_event now (KeyCode.char 'n') = some { a with state := State.New } := by
  obtain ⟨ts, ex, st, d, ti, de, sh, f, sel⟩ := a
  cases st with
  | Home => rfl
  | New => exact State.noConfusion h

/-- Witness for C3's amended theorem at a concrete app. -/
theorem c3_new_key_only_changes_state_witness :
    (initApp []).handle_key_event "2026-01-01T00:00:00+09:00" (KeyCode.char 'n') =
      some { initApp [] with state := State.New } :=
  c3_new_key_only_changes_state (initApp []) "2026-01-01T00:00:00+09:00" rfl

/-- Claim C4, counterexample: on an empty store with no selection, the down
key sets the selection to index 0; it is not a no-op and the selection does
not stay at "none". -/
theorem c4_empty_store_down_selects_cex :
    ((initApp []).handle_key_event "2026-01-01T00:00:00+09:00" KeyCode.down).map
      App.selected = some (some 0) := rfl

/-- Claim C4, amended: for a store of N ≥ 1 tasks the selection wraps at both
ends ("previous" on index 0 yields N-1, "next" on index N-1 yields 0), but on
an empty store with no selection the down/up keys are not a no-op: they set
the selection to index 0. -/
theorem c4_selection_wrap (a : App) (now : DateTime) (h : a.state = State.Home) :
    (a.selected = some 0 → 1 ≤ a.tasks.length →
      a.handle_key_event now KeyCode.up =
        some { a with selected := some (a.tasks.length - 1) })
    ∧ (a.selected = some (a.tasks.length - 1) → 1 ≤ a.tasks.length →
      a.handle_key_event now KeyCode.down = some { a with selected := some 0 })
    ∧ (a.tasks = [] → a.selected = none →
      a.handle_key_event now KeyCode.down = some { a with selected := some 0 }
      ∧ a.handle_key_event now KeyCode.up = some { a with selected := some 0 }) := by
  obtain ⟨ts, ex, st, d, ti, de, sh, f, sel⟩ := a
  cases st with
  | New => exact State.noConfusion h
  | Home =>
    refine ⟨?_, ?_, ?_⟩
    · intro hsel hlen
      replace hsel : sel = some 0 := hsel
      replace hlen : 1 ≤ ts.length := hlen
      subst hsel
      simp only [App.handle_key_event, App.previous]
      simp [show ¬ ts.length = 0 by omega]
    · intro hsel hlen
      replace hsel : sel = some (ts.length - 1) := hsel
      replace hlen : 1 ≤ ts.length := hlen
      subst hsel
      simp only [App.handle_key_event, App.next]
      simp [show ¬ ts.length = 0 by omega]
    · intro htasks hsel
      replace htasks : ts = [] := htasks
      replace hsel : sel = none := hsel
      subst hsel; subst htasks
      exact ⟨rfl, rfl⟩

/-- Witness for C4's amended theorem: wrap-around on a two-task store in both
directions, and the empty-store behaviour. -/
theorem c4_selection_wrap_witness :
    ({ initApp [sampleTask, sampleTask2] with selected := some 0 } : App).handle_key_event
        "2026-01-01T00:00:00+09:00" KeyCode.up =
      some { initApp [sampleTask, sampleTask2] with selected := some 1 }
    ∧ ({ initApp [sampleTask, sampleTask2] with selected := some 1 } : App).handle_key_event
        "2026-01-01T00:00:00+09:00" KeyCode.down =
      some { initApp [sampleTask, sampleTask2] with selected := some 0 }
    ∧ (initApp []).handle_key_event "2026-01-01T00:00:00+09:00" KeyCode.down =
      some { initApp [] with selected := some 0 } :=
  ⟨(c4_selection_wrap _ "2026-01-01T00:00:00+09:00" rfl).1 rfl (by decide),
   (c4_selection_wrap _ "2026-01-01T00:00:00+09:00" rfl).2.1 rfl (by decide),
   ((c4_selection_wrap _ "2026-01-01T00:00:00+09:00" rfl).2.2 rfl rfl).1⟩

/-- Claim C5, counterexample: a submission with an empty title buffer and the
valid duration "5" is committed, yielding a task whose title is the empty
string — the non-empty-title invariant does not hold. -/
theorem c5_empty_title_submission_cex :
    ((({ initApp [] with
          state := State.New
          date_input := ⟨"5", FieldStyle.untouched⟩ } : App).handle_key_event
        "2026-01-01T00:00:00+09:00" KeyCode.enter).map fun b => b.tasks.map Task.title) =
      some [""] := rfl

/-- Claim C5, amended: a validated submission checks only the duration; the
created task's title is the title buffer's first line copied verbatim, with
no non-emptiness validation, so tasks with empty titles are possible. -/
theorem c5_submitted_title_unvalidated (a : App) (now : DateTime) (h : a.state = State.New)
    (v : Int) (n : Nat)
    (h1 : parseI32 a.date_input.firstLine = some v)
    (h2 : parseU64 a.date_input.firstLine = some n) :
    (a.handle_key_event now KeyCode.enter).map (fun b => b.tasks.map Task.title) =
      some (a.tasks.map Task.title ++ [a.title_input.firstLine]) := by
  rw [handle_enter_success a now h v n h1 h2]
  simp

/-- Witness for C5's amended theorem: an empty title buffer with duration "7"
commits a task with the empty title. -/
theorem c5_submitted_title_unvalidated_witness :
    ((({ initApp [] with
          state := State.New
          date_input := ⟨"7", FieldStyle.untouched⟩ } : App).handle_key_event
        "2026-01-01T00:00:00+09:00" KeyCode.enter).map fun b => b.tasks.map Task.title) =
      some [""] :=
  c5_submitted_title_unvalidated _ "2026-01-01T00:00:00+09:00" rfl 7 7 rfl rfl

/-- Claim C6: one toggle of the selected task advances its status one step
along NotStarted, InProgress, Complete, Overdue, and the cycle has period 4:
four applications of the status step restore any status. -/
theorem c6_toggle_cycle :
    (∀ (a : App) (now : DateTime) (i : Nat) (t : Task),
        a.state = State.Home → a.selected = some i → a.tasks[i]? = some t →
        a.handle_key_event now KeyCode.enter =
          some { a with tasks := a.tasks.set i { t with status := nextStatus t.status } })
    ∧ ∀ s : Status, nextStatus (nextStatus (nextStatus (nextStatus s))) = s := by
  constructor
  · intro a now i t h hsel ht
    obtain ⟨ts, ex, st, d, ti, de, sh, f, sel⟩ := a
    cases st with
    | New => exact State.noConfusion h
    | Home =>
      replace hsel : sel = some i := hsel
      replace ht : ts[i]? = some t := ht
      subst hsel
      simp only [App.handle_key_event]
      simp [ht]
  · intro s
    cases s <;> rfl

/-- Witness for C6 at a concrete one-task app and a concrete status. -/
theorem c6_toggle_cycle_witness :
    ({ initApp [sampleTask] with selected := some 0 } : App).handle_key_event
        "2026-01-01T00:00:00+09:00" KeyCode.enter =
      some { initApp [sampleTask] with
        tasks := [{ sampleTask with status := nextStatus sampleTask.status }]
        selected := some 0 }
    ∧ nextStatus (nextStatus (nextStatus (nextStatus Status.NotStarted))) =
      Status.NotStarted :=
  ⟨c6_toggle_cycle.1 _ "2026-01-01T00:00:00+09:00" 0 sampleTask rfl rfl rfl,
   c6_toggle_cycle.2 Status.NotStarted⟩

/-- Claim C7, counterexample: the duration buffer "-5" passes the validation
(`i32` parse succeeds), yet the commit does not append a task and does not
return to the list view — it aborts on the unwrapped `u64` parse. -/
theorem c7_validated_negative_aborts_cex :
    parseI32 (TextArea.mk "-5" FieldStyle.untouched).firstLine = some (-5)
    ∧ ({ initApp [] with
          state := State.New
          date_input := ⟨"-5", FieldStyle.untouched⟩ } : App).handle_key_event
        "2026-01-01T00:00:00+09:00" KeyCode.enter = none :=
  ⟨rfl, rfl⟩

/-- Claim C7, amended: when the duration buffer parses as an `i32` and also
as a `u64` (a nonnegative integer), Enter appends the new task — status
NotStarted, created = now, duration = parsed hours in seconds, the entered
title and description — marks the field valid and returns to the list view;
when the `i32` parse fails, only the field's error style changes: the store,
the buffers and the view (still Compose, by the `state` field of the record
update) are unchanged. A negative in-range integer instead passes validation
and aborts. -/
theorem c7_compose_enter_commit (a : App) (now : DateTime) (h : a.state = State.New) :
    (∀ (v : Int) (n : Nat), parseI32 a.date_input.firstLine = some v →
        parseU64 a.date_input.firstLine = some n →
        a.handle_key_event now KeyCode.enter =
          some { a with
            date_input := { a.date_input with style := FieldStyle.valid }
            tasks := a.tasks ++ [{
              created := now
              duration := ⟨n * 3600, 0⟩
              title := a.title_input.firstLine
              description := joinLines a.description_input.lines
              status := Status.NotStarted }]
            state := State.Home })
    ∧ (parseI32 a.date_input.firstLine = none →
        a.handle_key_event now KeyCode.enter =
          some { a with date_input := { a.date_input with style := FieldStyle.invalid } }) :=
  ⟨fun v n h1 h2 => handle_enter_success a now h v n h1 h2,
   fun h1 => handle_enter_failure a now h h1⟩

/-- Witness for C7's amended theorem: the spec's own example — duration "5",
title "Buy milk", description "2%" — commits and returns to the list view,
while "abc" only flags the field invalid. -/
theorem c7_compose_enter_commit_witness :
    ({ initApp [] with
        state := State.New
        date_input := ⟨"5", FieldStyle.untouched⟩
        title_input := ⟨"Buy milk", FieldStyle.untouched⟩
        description_input := ⟨"2%", FieldStyle.untouched⟩ } : App).handle_key_event
      "2026-01-01T00:00:00+09:00" KeyCode.enter =
      some { initApp [] with
        date_input := ⟨"5", FieldStyle.valid⟩
        title_input := ⟨"Buy milk", FieldStyle.untouched⟩
        description_input := ⟨"2%", FieldStyle.untouched⟩
        tasks := [{
          created := "2026-01-01T00:00:00+09:00"
          duration := ⟨18000, 0⟩
          title := "Buy milk"
          description := "2%"
          status := Status.NotStarted }]
        state := State.Home }
    ∧ ({ initApp [] with
        state := State.New
        date_input := ⟨"abc", FieldStyle.untouched⟩ } : App).handle_key_event
      "2026-01-01T00:00:00+09:00" KeyCode.enter =
      some { initApp [] with
        state := State.New
        date_input := ⟨"abc", FieldStyle.invalid⟩ } :=
  ⟨(c7_compose_enter_commit _ "2026-01-01T00:00:00+09:00" rfl).1 5 5 rfl rfl,
   (c7_compose_enter_commit _ "2026-01-01T00:00:00+09:00" rfl).2 rfl⟩

/-- Claim C8: loading with a missing or unreadable file yields the empty
store rather than an error, while readable content that does not deserialize
as the expected form is fatal (the load aborts instead of proceeding). -/
theorem c8_load_missing_vs_corrupt (j : Json) :
    loadTasks none = some []
    ∧ (decodeTasks j = none → loadTasks (some j) = none) :=
  ⟨rfl, fun h => h⟩

/-- Witness for C8 at concrete content that is not a task array. -/
theorem c8_load_missing_vs_corrupt_witness :
    loadTasks none = some []
    ∧ loadTasks (some (Json.str "garbage")) = none :=
  ⟨(c8_load_missing_vs_corrupt (Json.str "garbage")).1,
   (c8_load_missing_vs_corrupt (Json.str "garbage")).2 rfl⟩

/-- Claim C9: persistence round-trips exactly — decoding the serialized form
of any store whose durations satisfy the `std::time::Duration` invariants
(`nanos < 10^9`, `secs` a `u64`) yields the same tasks, with identical field
values, in the same order. -/
theorem c9_save_load_roundtrip (ts : List Task)
    (h : ∀ t ∈ ts, t.duration.nanos < 1000000000 ∧ t.duration.secs < 2 ^ 64) :
    loadTasks (some (encodeTasks ts)) = some ts := by
  simp only [loadTasks, encodeTasks, decodeTasks]
  exact decodeTaskList_encode ts h

/-- Witness for C9 on a concrete two-task store with distinct statuses and a
multi-line description. -/
theorem c9_save_load_roundtrip_witness :
    loadTasks (some (encodeTasks [sampleTask, sampleTask2])) =
      some [sampleTask, sampleTask2] :=
  c9_save_load_roundtrip [sampleTask, sampleTask2] (by decide)

/-- Claim C10: from the initial app state the focus index stays below 3
along every event sequence (it starts at 0 and only Tab changes it, to
`(focus + 1) % 3`), and in any compose-view state with focus below 3 the
character and backspace routing never reaches its final, aborting arm. -/
theorem c10_focus_always_below_three (ts : List Task) (now : DateTime) (ks : List KeyCode) :
    focusOk (runEvents now (some (initApp ts)) ks)
    ∧ ∀ (a : App) (c : Char), a.focus < 3 → a.state = State.New →
        (a.handle_key_event now (KeyCode.char c)).isSome
        ∧ (a.handle_key_event now KeyCode.backspace).isSome := by
  constructor
  · exact runEvents_focusOk now ks (some (initApp ts)) (show (0 : Nat) < 3 by decide)
  · intro a c hf hs
    obtain ⟨ts', ex, st, d, ti, de, sh, f, sel⟩ := a
    cases st with
    | Home => exact State.noConfusion hs
    | New =>
      replace hf : f < 3 := hf
      constructor
      · simp only [App.handle_key_event]
        split <;> ((try simp); (try omega))
      · match f, hf with
        | 0, _ => rfl
        | 1, _ => rfl
        | 2, _ => rfl

/-- Witness for C10 on a concrete event sequence and a concrete compose-view
state. -/
theorem c10_focus_always_below_three_witness :
    focusOk (runEvents "2026-01-01T00:00:00+09:00" (some (initApp []))
      [KeyCode.char 'n', KeyCode.tab, KeyCode.char 'a'])
    ∧ (({ initApp [] with state := State.New } : App).handle_key_event
        "2026-01-01T00:00:00+09:00" (KeyCode.char 'a')).isSome
    ∧ (({ initApp [] with state := State.New } : App).handle_key_event
        "2026-01-01T00:00:00+09:00" KeyCode.backspace).isSome :=
  ⟨(c10_focus_always_below_three [] "2026-01-01T00:00:00+09:00"
      [KeyCode.char 'n', KeyCode.tab, KeyCode.char 'a']).1,
   ((c10_focus_always_below_three [] "2026-01-01T00:00:00+09:00" []).2 _ 'a'
      (by decide) rfl).1,
   ((c10_focus_always_below_three [] "2026-01-01T00:00:00+09:00" []).2 _ 'a'
      (by decide) rfl).2⟩

end TaskTracker
